import Mathlib

/-!
# Invoice layout engine: `src/services/pdfGenerator.js`

A shallow embedding of `generateInvoicePDF` and of `getStatusColor`, and of the
create and update handlers of `src/routes/invoices.js`.

Modelling conventions.

* A JavaScript number is represented by the rational it denotes; arithmetic is
  exact.  `Math.round` is `⌊x + 1/2⌋`, `Math.max` is `max`.
* The pdfkit document is represented by the list of calls made on it, in
  program order (`DrawCall`).  A chained expression such as
  `doc.font(f).fontSize(n).text(s, x, y)` contributes its calls left to right.
* What the program takes from its host and from pdfkit is gathered in
  `Runtime`: the page size, whether an image loads, `toLocaleDateString`, and
  `Number::toString`.
* The body of `generateInvoicePDF` is cut at its section comments
  (`// ---------- ...`); each section is a function from the cursor `y` at its
  start to the calls it makes and the cursor at its end (`Block`).
* Optional strings (`clientId?.email`, `company.logo`, ...) are `Option String`;
  the tests `if (s)` and `s || ""` are `truthy` and `orEmpty`.
* A route handler is a function from what it reads of the database (`Db`), the
  authenticated user and the request body to its answer and the document it
  writes (`Outcome`).  Request fields carry the types the handler tests for.
-/

namespace InvoicePdf

/-! ## Data model (`models/Invoice.js`, `models/Client.js`, `models/CompanySettings.js`) -/

/-- One entry of `invoice.items`. -/
structure LineItem where
  name : String
  quantity : ℚ
  price : ℚ
deriving DecidableEq

/-- The populated `invoice.clientId`. -/
structure Client where
  name : Option String
  email : Option String
  phone : Option String
  address : Option String
deriving DecidableEq

/-- An invoice document; dates are kept as the number the `Date` wraps. -/
structure Invoice where
  invoiceNumber : String
  clientId : Option Client
  items : List LineItem
  subtotal : ℚ
  tax : ℚ
  discount : ℚ
  total : ℚ
  status : String
  invoiceDate : ℤ
  dueDate : ℤ
  notes : String
deriving DecidableEq

/-- The company settings document (`{}` is every field absent). -/
structure Company where
  businessName : Option String
  address : Option String
  phone : Option String
  email : Option String
  logo : Option String
deriving DecidableEq

/-- What the generator obtains from pdfkit and from the JavaScript host. -/
structure Runtime where
  /-- Value of `doc.page.width`. -/
  pageWidth : ℚ
  /-- Value of `doc.page.height`. -/
  pageHeight : ℚ
  /-- Whether `doc.image(src, ...)` opens `src` (it throws when it cannot). -/
  imageLoads : String → Bool
  /-- The host function `new Date(d).toLocaleDateString()`. -/
  toLocaleDateString : ℤ → String
  /-- The host function `Number::toString` in radix 10. -/
  numberToString : ℚ → String

/-! ## JavaScript helpers -/

/-- Truthiness of an optional string: present and not empty. -/
def truthy (s : Option String) : Bool :=
  match s with
  | some v => v != ""
  | none => false

/-- The expression `s || ""`. -/
def orEmpty (s : Option String) : String :=
  match s with
  | some v => v
  | none => ""

/-- The function `Math.round`: nearest integer, a tie going up. -/
def mathRound (x : ℚ) : ℚ := (⌊x + 1 / 2⌋ : ℤ)

/-- The method `Number.prototype.toFixed(f)` of ECMAScript (sec. 21.1.3.3), step by
step: the sign, the branch for magnitudes from `10^21` on, the nearest integer
`n` to `x * 10^f` (the larger of two), its digits, the zero padding and the
point. -/
def toFixed (R : Runtime) (x : ℚ) (f : ℕ) : String :=
  let s := if x < 0 then "-" else ""
  let x := if x < 0 then -x else x
  if (10 : ℚ) ^ 21 ≤ x then
    s ++ R.numberToString x
  else
    let n : ℕ := (⌊x * (10 : ℚ) ^ f + 1 / 2⌋).toNat
    let m : List Char := Nat.toDigits 10 n
    let m : List Char :=
      if f ≠ 0 then
        let k := m.length
        let m := if k ≤ f then List.replicate (f + 1 - k) '0' ++ m else m
        let k := if k ≤ f then f + 1 else k
        let a := m.take (k - f)
        let b := m.drop (k - f)
        a ++ ['.'] ++ b
      else m
    s ++ String.mk m

/-! ## The drawing surface -/

/-- A call on the pdfkit document. -/
inductive DrawCall where
  | image (src : String) (x y width height : ℚ)
  | font (name : String)
  | fontSize (size : ℚ)
  | fillColor (color : String)
  | text (content : String) (x y : ℚ) (width : Option ℚ) (align : Option String)
  | rect (x y w h : ℚ)
  | roundedRect (x y w h r : ℚ)
  | fill (color : String)
  | moveTo (x y : ℚ)
  | lineTo (x y : ℚ)
  | strokeColor (color : String)
  | stroke
  | end_
deriving DecidableEq

/-- The calls made by a stretch of the program and the cursor it leaves. -/
structure Block where
  calls : List DrawCall
  y : ℚ
deriving DecidableEq

/-- The call `doc.image(src, x, y, {width, height})`, which throws when the
image cannot be opened. -/
def docImage (R : Runtime) (src : String) (x y width height : ℚ) :
    Except String (List DrawCall) :=
  if R.imageLoads src then .ok [DrawCall.image src x y width height]
  else .error "image"

/-! ## Constants of `generateInvoicePDF` (lines 28-45) -/

/-- Left bound of the content (line 30). -/
def left : ℚ := 30

/-- Right bound of the content (line 31). -/
def right (R : Runtime) : ℚ := R.pageWidth - 30

/-- Width of the content (line 32). -/
def contentWidth (R : Runtime) : ℚ := right R - left

/-- Font size of the title (line 35). -/
def headerTitleSize : ℚ := 36

/-- Font size of small text (line 36). -/
def smallText : ℚ := 9

/-- Font size of normal text (line 37). -/
def normalText : ℚ := 10

/-- Fill of the two header bars (line 38). -/
def tableHeaderBg : String := "#111827"

/-- Text colour inside the header bars (line 39). -/
def tableHeaderText : String := "#ffffff"

/-- Colour of separator lines (line 40). -/
def tableBorder : String := "#e6e6e6"

/-- Fill of the notes box (line 41). -/
def notesBg : String := "#f5f7f8"

/-- Colour of the labels of the totals (line 42). -/
def totalsLabelColor : String := "#6b7280"

/-- Colour of the values of the totals (line 43). -/
def totalsValueColor : String := "#111827"

/-- Fill of the TOTAL box (line 44). -/
def totalBoxBg : String := "#111827"

/-- Text colour of the TOTAL box (line 45). -/
def totalBoxText : String := "#ffffff"

/-- The function `getStatusColor` (lines 3-14). -/
def getStatusColor (status : String) : String :=
  if status = "Paid" then "#22bb33"
  else if status = "Pending" then "#f0ad4e"
  else if status = "Overdue" then "#d9534f"
  else "#666"

/-- The template literal of a dollar sign and `x.toFixed(2)`. -/
def dollars (R : Runtime) (x : ℚ) : String := "$" ++ toFixed R x 2

open DrawCall

/-! ## Header: logo, title, invoice id (lines 47-67) -/

/-- Lines 49-67.  The inner `try`/`catch` around `doc.image` discards the
exception, so a logo that does not load contributes no call. -/
def headerBlock (R : Runtime) (invoice : Invoice) (company : Company) (y : ℚ) : Block :=
  let logoCalls : List DrawCall :=
    if truthy company.logo then
      match docImage R (orEmpty company.logo) left y 64 64 with
      | .ok cs => cs
      | .error _ => []
    else []
  let titleX := left + 0
  let title := [font "Helvetica-Bold", fontSize headerTitleSize, fillColor "#111827",
    text "INVOICE" titleX y none none]
  let y := y + headerTitleSize + 6
  let idLine := [font "Helvetica", fontSize smallText, fillColor "#6b7280",
    text ("Invoice ID: " ++ invoice.invoiceNumber) titleX y none none]
  let y := y + 18
  ⟨logoCalls ++ title ++ idLine, y⟩

/-! ## Party block: INVOICE TO and FROM (lines 69-95) -/

/-- Left column origin (line 70). -/
def leftColX : ℚ := left

/-- Gutter between the two columns (line 71). -/
def middleSpace : ℚ := 40

/-- Width of a column (line 72). -/
def colWidth (R : Runtime) : ℚ := (contentWidth R - middleSpace) / 2

/-- Right column origin (line 73). -/
def rightColX (R : Runtime) : ℚ := left + colWidth R + middleSpace

/-- Lines 75-83: the INVOICE TO column; the cursor returned is `curY`. -/
def clientColumn (R : Runtime) (invoice : Invoice) (y : ℚ) : Block :=
  let name := invoice.clientId.bind Client.name
  let email := invoice.clientId.bind Client.email
  let phone := invoice.clientId.bind Client.phone
  let address := invoice.clientId.bind Client.address
  let head := [font "Helvetica-Bold", fontSize normalText, fillColor "#111827",
    text "INVOICE TO" leftColX y none none,
    font "Helvetica", fontSize smallText, fillColor "#111827"]
  let curY := y + 14
  let b : Block := ⟨head ++ [text (orEmpty name) leftColX curY (some (colWidth R)) none], curY + 12⟩
  let b : Block :=
    if truthy email then
      ⟨b.calls ++ [text (orEmpty email) leftColX b.y (some (colWidth R)) none], b.y + 12⟩
    else b
  let b : Block :=
    if truthy phone then
      ⟨b.calls ++ [text (orEmpty phone) leftColX b.y (some (colWidth R)) none], b.y + 12⟩
    else b
  let b : Block :=
    if truthy address then
      ⟨b.calls ++ [text (orEmpty address) leftColX b.y (some (colWidth R)) none], b.y + 12⟩
    else b
  b

/-- Lines 85-93: the FROM column; the cursor returned is `rightY`. -/
def companyColumn (R : Runtime) (company : Company) (y : ℚ) : Block :=
  let head := [font "Helvetica-Bold", fontSize normalText,
    text "FROM" (rightColX R) y none none,
    font "Helvetica", fontSize smallText, fillColor "#111827"]
  let rightY := y + 14
  let b : Block :=
    ⟨head ++ [text (orEmpty company.businessName) (rightColX R) rightY (some (colWidth R)) none],
      rightY + 12⟩
  let b : Block :=
    if truthy company.email then
      ⟨b.calls ++ [text (orEmpty company.email) (rightColX R) b.y (some (colWidth R)) none],
        b.y + 12⟩
    else b
  let b : Block :=
    if truthy company.phone then
      ⟨b.calls ++ [text (orEmpty company.phone) (rightColX R) b.y (some (colWidth R)) none],
        b.y + 12⟩
    else b
  let b : Block :=
    if truthy company.address then
      ⟨b.calls ++ [text (orEmpty company.address) (rightColX R) b.y (some (colWidth R)) none],
        b.y + 12⟩
    else b
  b

/-- Lines 75-95: both columns, then `y = Math.max(curY, rightY) + 12`. -/
def partyBlock (R : Runtime) (invoice : Invoice) (company : Company) (y : ℚ) : Block :=
  let l := clientColumn R invoice y
  let r := companyColumn R company y
  ⟨l.calls ++ r.calls, max l.y r.y + 12⟩

/-! ## Dates and status strip (lines 97-127) -/

/-- Height of the bar of the strip (line 99). -/
def datesHeaderHeight : ℚ := 24

/-- Height of the data row of the strip (line 100). -/
def datesRowHeight : ℚ := 20

/-- Origin of the status column (line 108). -/
def statusLabelX (R : Runtime) : ℚ := right R - 78

/-- Width of the status pill (line 119). -/
def pillW : ℚ := 60

/-- Height of the status pill (line 119). -/
def pillH : ℚ := 16

/-- Lines 97-127. -/
def datesBlock (R : Runtime) (invoice : Invoice) (y : ℚ) : Block :=
  let datesY := y
  let bar := [rect left datesY (contentWidth R) datesHeaderHeight, fill tableHeaderBg,
    fillColor tableHeaderText, font "Helvetica-Bold", fontSize 10,
    text "Invoice Date" (leftColX + 10) (datesY + 6) none none,
    text "Due Date" (rightColX R + 10) (datesY + 6) none none,
    text "Status" (statusLabelX R) (datesY + 6) none none]
  let datesDataY := datesY + datesHeaderHeight
  let data := [font "Helvetica", fontSize 9, fillColor "#111827",
    text (R.toLocaleDateString invoice.invoiceDate) (leftColX + 10) (datesDataY + 4) none none,
    text (R.toLocaleDateString invoice.dueDate) (rightColX R + 10) (datesDataY + 4) none none]
  let statusColor := getStatusColor invoice.status
  let badge := [roundedRect (statusLabelX R) (datesDataY + 2) pillW pillH 3, fill statusColor,
    fillColor "#fff", font "Helvetica-Bold", fontSize 9,
    text invoice.status (statusLabelX R + 6) (datesDataY + 4) none none,
    fillColor "#000"]
  let divider := [moveTo (left + 2) (datesDataY + datesRowHeight - 4),
    lineTo (left + contentWidth R - 2) (datesDataY + datesRowHeight - 4),
    strokeColor tableBorder, stroke]
  ⟨bar ++ data ++ badge ++ divider, datesDataY + datesRowHeight + 8⟩

/-! ## Line-item table (lines 129-174) -/

/-- Left edge of the table (line 131). -/
def tableLeft : ℚ := leftColX

/-- Right edge of the table (line 132). -/
def tableRight (R : Runtime) : ℚ := right R

/-- Width of the table (line 133). -/
def tableWidth (R : Runtime) : ℚ := tableRight R - tableLeft

/-- Height of the header bar of the table (line 134). -/
def headerHeight : ℚ := 24

/-- Origin of the PRODUCT column (line 139). -/
def colProductX : ℚ := tableLeft + 10

/-- Origin of the PRICE column (line 140). -/
def colPriceX (R : Runtime) : ℚ := tableLeft + mathRound (tableWidth R * (45 / 100))

/-- Origin of the QTY column (line 141). -/
def colQtyX (R : Runtime) : ℚ := tableLeft + mathRound (tableWidth R * (65 / 100))

/-- Origin of the TOTAL column (line 142). -/
def colTotalX (R : Runtime) : ℚ := tableLeft + mathRound (tableWidth R * (82 / 100))

/-- Height of a row (line 153). -/
def rowHeight : ℚ := 20

/-- Cap on the rows drawn (line 154). -/
def maxRows : ℕ := 12

/-- Lines 129-149: the header bar; the cursor returned is the `y` of line 149. -/
def tableHeaderBlock (R : Runtime) (y : ℚ) : Block :=
  let tableTop := y + 4
  let calls := [rect tableLeft tableTop (tableWidth R) headerHeight, fill tableHeaderBg,
    fillColor tableHeaderText, font "Helvetica-Bold", fontSize 10,
    text "PRODUCT" colProductX (tableTop + 6) none none,
    text "PRICE" (colPriceX R) (tableTop + 6) (some (colQtyX R - colPriceX R - 5)) (some "right"),
    text "QTY" (colQtyX R) (tableTop + 6) (some (colTotalX R - colQtyX R - 5)) (some "right"),
    text "TOTAL" (colTotalX R) (tableTop + 6)
      (some (tableLeft + tableWidth R - colTotalX R - 10)) (some "right")]
  ⟨calls, tableTop + headerHeight + 6⟩

/-- Lines 159-171: the body of the `forEach` callback, for item `item` at index
`idx`, with `y` the cursor of line 149. -/
def rowCalls (R : Runtime) (y : ℚ) (item : LineItem) (idx : ℕ) : List DrawCall :=
  let rowY := y + idx * rowHeight
  let rowTotal := toFixed R (item.price * item.quantity) 2
  [fillColor "#111827",
    text item.name colProductX rowY (some (colPriceX R - colProductX - 10)) none,
    text ("$" ++ toFixed R item.price 2) (colPriceX R) rowY
      (some (colQtyX R - colPriceX R - 5)) (some "right"),
    text (R.numberToString item.quantity) (colQtyX R) rowY
      (some (colTotalX R - colQtyX R - 5)) (some "right"),
    font "Helvetica-Bold",
    text ("$" ++ rowTotal) (colTotalX R) rowY
      (some (tableLeft + tableWidth R - colTotalX R - 10)) (some "right"),
    font "Helvetica", fontSize 9,
    moveTo (tableLeft + 2) (rowY + rowHeight - 4),
    lineTo (tableLeft + tableWidth R - 2) (rowY + rowHeight - 4),
    strokeColor tableBorder, stroke]

/-- Lines 155-156: `rows = (invoice.items || []).slice(0, maxRows)`; an array is
always truthy, so `|| []` returns `invoice.items`. -/
def rows (invoice : Invoice) : List LineItem := invoice.items.take maxRows

/-- Lines 158-172: the calls of each run of the `forEach` callback, one entry per
drawn row, in order. -/
def renderedRows (R : Runtime) (invoice : Invoice) (y : ℚ) : List (List DrawCall) :=
  (rows invoice).mapIdx fun idx item => rowCalls R y item idx

/-- Lines 151-174: the rows, then `y = y + rows.length * rowHeight + 12`. -/
def tableRowsBlock (R : Runtime) (invoice : Invoice) (y : ℚ) : Block :=
  ⟨[font "Helvetica", fontSize 9, fillColor "#111827"] ++ (renderedRows R invoice y).flatten,
    y + (rows invoice).length * rowHeight + 12⟩

/-! ## Totals (lines 176-205) -/

/-- Width of the totals box (line 177). -/
def totalsWidth : ℚ := 160

/-- Left edge of the totals box (line 178). -/
def totalsX (R : Runtime) : ℚ := right R - totalsWidth

/-- Height of the TOTAL box (line 199). -/
def totalBoxH : ℚ := 26

/-- Lines 181-185: the closure `drawTotalsRow`; the `y` of the block it threads is
the captured variable `totalsY`. -/
def drawTotalsRow (R : Runtime) (st : Block) (label value : String) (isBold negative : Bool) :
    Block :=
  ⟨st.calls ++
    [font (if isBold then "Helvetica-Bold" else "Helvetica"), fontSize 9,
      fillColor totalsLabelColor,
      text label (totalsX R) st.y (some (totalsWidth - 60)) (some "left"),
      font (if isBold then "Helvetica-Bold" else "Helvetica"), fillColor totalsValueColor,
      text ((if negative then "-" else "") ++ value) (totalsX R + 60) st.y
        (some (totalsWidth - 60)) (some "right")],
    st.y + 16⟩

/-- Lines 176-205; the two optional arguments of `drawTotalsRow` are never passed
and take their default `false`.  The test of line 189,
`invoice.discount && invoice.discount !== 0`, holds of a number exactly when it
is not 0. -/
def totalsBlock (R : Runtime) (invoice : Invoice) (y : ℚ) : Block :=
  let st : Block := ⟨[], y⟩
  let st := drawTotalsRow R st "SUB-TOTAL" ("$" ++ toFixed R invoice.subtotal 2) false false
  let st := drawTotalsRow R st ("TAX ($" ++ toFixed R invoice.tax 2 ++ ")")
    ("$" ++ toFixed R invoice.tax 2) false false
  let st :=
    if invoice.discount ≠ 0 then
      drawTotalsRow R st "DISCOUNT" ("-$" ++ toFixed R invoice.discount 2) false false
    else st
  let separator := [moveTo (totalsX R) st.y, lineTo (right R) st.y, strokeColor tableBorder, stroke]
  let totalsY := st.y + 8
  let totalBoxW := totalsWidth
  let box := [rect (totalsX R) totalsY totalBoxW totalBoxH, fill totalBoxBg,
    fillColor totalBoxText, font "Helvetica-Bold", fontSize 11,
    text "TOTAL" (totalsX R + 8) (totalsY + 6) none none,
    text ("$" ++ toFixed R invoice.total 2) (totalsX R + 60) (totalsY + 6)
      (some (totalBoxW - 60)) (some "right"),
    fillColor "#000"]
  ⟨st.calls ++ separator ++ box, totalsY + totalBoxH + 12⟩

/-! ## Notes (lines 207-219) and footer (lines 221-228) -/

/-- Lines 207-219. -/
def notesBlock (R : Runtime) (invoice : Invoice) (y : ℚ) : Block :=
  if invoice.notes ≠ "" then
    let notesTop := y + 8
    let notesHeight : ℚ := 48
    ⟨[roundedRect left notesTop (contentWidth R) notesHeight 4, fill notesBg,
      fillColor "#111827", font "Helvetica-Bold", fontSize 10,
      text "NOTES" (left + 8) (notesTop + 6) none none,
      font "Helvetica", fontSize 9, fillColor "#444",
      text invoice.notes (left + 8) (notesTop + 22) (some (contentWidth R - 16)) none],
      notesTop + notesHeight + 12⟩
  else ⟨[], y + 18⟩

/-- Lines 221-228; the cursor is neither read nor changed. -/
def footerBlock (R : Runtime) (y : ℚ) : Block :=
  let footerY := R.pageHeight - 90
  ⟨[moveTo left footerY, lineTo (right R) footerY, strokeColor tableBorder, stroke,
    font "Helvetica-Oblique", fontSize 10, fillColor "#444",
    text "Thank You For Your Business" left (footerY + 10) (some (contentWidth R))
      (some "center")],
    y⟩

/-! ## `generateInvoicePDF` (lines 16-236) -/

/-- The sections of one run, each with the cursor it leaves. -/
structure Layout where
  header : Block
  party : Block
  dates : Block
  tableHeader : Block
  tableRows : Block
  totals : Block
  notes : Block
  footer : Block
deriving DecidableEq

/-- The sections in page order, the cursor starting at `y = 20` (line 47) and each
section starting where the previous one ended. -/
def layout (R : Runtime) (invoice : Invoice) (company : Company) : Layout :=
  let header := headerBlock R invoice company 20
  let party := partyBlock R invoice company header.y
  let dates := datesBlock R invoice party.y
  let tableHeader := tableHeaderBlock R dates.y
  let tableRows := tableRowsBlock R invoice tableHeader.y
  let totals := totalsBlock R invoice tableRows.y
  let notes := notesBlock R invoice totals.y
  let footer := footerBlock R notes.y
  ⟨header, party, dates, tableHeader, tableRows, totals, notes, footer⟩

/-- All the calls of a layout, in program order, closed by `doc.end()`. -/
def Layout.calls (l : Layout) : List DrawCall :=
  l.header.calls ++ l.party.calls ++ l.dates.calls ++ l.tableHeader.calls ++
    l.tableRows.calls ++ l.totals.calls ++ l.notes.calls ++ l.footer.calls ++ [end_]

/-- The function `generateInvoicePDF`: `.ok` is the promise resolved with the
document the calls produce, `.error` the promise rejected by the outer `catch`
(line 232), which is entered only when a statement of the body throws. -/
def generateInvoicePDF (R : Runtime) (invoice : Invoice) (company : Company) :
    Except String (List DrawCall) :=
  .ok (layout R invoice company).calls

/-! ## The create and update routes (`routes/invoices.js`, lines 93-214) -/

/-- The code points `String.prototype.trim` removes: the WhiteSpace and
LineTerminator productions of ECMAScript. -/
def jsWhiteSpace (c : Char) : Bool :=
  c.toNat ∈ [9, 10, 11, 12, 13, 32, 160, 5760, 8232, 8233, 8239, 8287, 12288, 65279] ||
    (8192 ≤ c.toNat && c.toNat ≤ 8202)

/-- The method `String.prototype.trim`. -/
def jsTrim (s : String) : String :=
  String.mk ((s.data.dropWhile jsWhiteSpace).reverse.dropWhile jsWhiteSpace).reverse

/-- The test `!s || s.trim() === ""` on a string that may be absent. -/
def blank (s : Option String) : Bool :=
  match s with
  | none => true
  | some v => v == "" || jsTrim v == ""

/-- An element of `req.body.items` as the create route reads it: `name` when it
is a string, `quantity` and `price` when `typeof` gives "number". -/
structure RawItem where
  name : Option String
  quantity : Option ℚ
  price : Option ℚ
deriving DecidableEq

/-- The field `req.body.items`: absent (or another falsy value), a value that is
not an array, or an array. -/
inductive ItemsField where
  | missing
  | notArray
  | array (items : List RawItem)
deriving DecidableEq

/-- The body of a create request.  `tax` and `discount` hold `Number(tax)` and
`Number(discount)`, with `none` for `NaN`. -/
structure CreateBody where
  clientId : Option String
  items : ItemsField
  tax : Option ℚ
  discount : Option ℚ
  dueDate : Option String
  notes : Option String
deriving DecidableEq

/-- An invoice document as stored (`models/Invoice.js`), the client not
populated. -/
structure InvoiceDoc where
  userId : String
  invoiceNumber : String
  clientId : String
  items : List LineItem
  subtotal : ℚ
  tax : ℚ
  discount : ℚ
  total : ℚ
  status : String
  dueDate : String
  notes : String
deriving DecidableEq

/-- What the routes obtain from the database. -/
structure Db where
  /-- The owner `client.userId.toString()` of `Client.findById(id)`, if found. -/
  clientOwner : String → Option String
  /-- The result of `generateInvoiceNumber(userId)`. -/
  generateInvoiceNumber : String → String
  /-- The message of the error `Invoice.create(doc)` throws, if it throws. -/
  createError : InvoiceDoc → Option String
  /-- The document `Invoice.findById(id)` finds. -/
  findById : String → Option InvoiceDoc
  /-- The message of the error `invoice.save()` throws, if it throws. -/
  saveError : InvoiceDoc → Option String

/-- The answer of a route: `res.status(code).json(...)` with either the document
or an error message. -/
inductive Response where
  | data (code : ℕ) (doc : InvoiceDoc)
  | error (code : ℕ) (message : String)
deriving DecidableEq

/-- The answer of a route and the document it wrote to the database, if any. -/
structure Outcome where
  response : Response
  saved : Option InvoiceDoc
deriving DecidableEq

/-- Lines 112-124: the loop over the items from index `i` on; the message of the
first failing check, if any. -/
def validateItems : List RawItem → ℕ → Option String
  | [], _ => none
  | item :: more, i =>
    if blank item.name then
      some ("Item " ++ toString (i + 1) ++ ": Name is required")
    else if (match item.quantity with | none => true | some q => q ≤ 0) then
      some ("Item " ++ toString (i + 1) ++ ": Quantity must be a positive number")
    else if (match item.price with | none => true | some p => p < 0) then
      some ("Item " ++ toString (i + 1) ++ ": Price must be a non-negative number")
    else validateItems more (i + 1)

/-- An item as the schema stores it; the create route stores only items whose
three fields passed the checks, so the defaults are not used there. -/
def RawItem.toLineItem (item : RawItem) : LineItem :=
  ⟨item.name.getD "", item.quantity.getD 0, item.price.getD 0⟩

/-- The reducer `items.reduce((sum, item) => sum + item.quantity * item.price, 0)`
(lines 144 and 190). -/
def sumItems (items : List LineItem) : ℚ :=
  items.foldl (fun sum item => sum + item.quantity * item.price) 0

/-- The handler of `POST /` (lines 94-171) for the authenticated user `userId`.
The `catch` of line 167 answers 400 with the message of the error thrown. -/
def createRoute (db : Db) (userId : String) (body : CreateBody) : Outcome :=
  if blank body.clientId then ⟨.error 400 "Client is required", none⟩
  else if blank body.dueDate then ⟨.error 400 "Due date is required", none⟩
  else
    match body.items with
    | .missing => ⟨.error 400 "At least one item is required", none⟩
    | .notArray => ⟨.error 400 "At least one item is required", none⟩
    | .array raw =>
      if raw.length = 0 then ⟨.error 400 "At least one item is required", none⟩
      else
        match validateItems raw 0 with
        | some message => ⟨.error 400 message, none⟩
        | none =>
          if db.clientOwner (body.clientId.getD "") ≠ some userId then
            ⟨.error 403 "Invalid client", none⟩
          else
            let taxValue : ℚ := body.tax.getD 0
            let discountValue : ℚ := body.discount.getD 0
            if taxValue < 0 then ⟨.error 400 "Tax cannot be negative", none⟩
            else if discountValue < 0 then ⟨.error 400 "Discount cannot be negative", none⟩
            else
              let items := raw.map RawItem.toLineItem
              let subtotal := sumItems items
              let total := subtotal + taxValue - discountValue
              let invoiceNumber := db.generateInvoiceNumber userId
              let doc : InvoiceDoc :=
                { userId := userId, invoiceNumber := invoiceNumber,
                  clientId := body.clientId.getD "", items := items, subtotal := subtotal,
                  tax := taxValue, discount := discountValue, total := total,
                  status := "Pending", dueDate := body.dueDate.getD "",
                  notes := body.notes.getD "" }
              match db.createError doc with
              | some message => ⟨.error 400 message, none⟩
              | none => ⟨.data 201 doc, some doc⟩

/-- The body of an update request: each field of the schema, when the body has
it. -/
structure UpdateBody where
  userId : Option String
  invoiceNumber : Option String
  clientId : Option String
  items : Option (List LineItem)
  subtotal : Option ℚ
  tax : Option ℚ
  discount : Option ℚ
  total : Option ℚ
  status : Option String
  dueDate : Option String
  notes : Option String
deriving DecidableEq

/-- The call `Object.assign(invoice, req.body)` (line 205): every field the body
has replaces that of the document. -/
def objectAssign (invoice : InvoiceDoc) (body : UpdateBody) : InvoiceDoc :=
  { userId := body.userId.getD invoice.userId,
    invoiceNumber := body.invoiceNumber.getD invoice.invoiceNumber,
    clientId := body.clientId.getD invoice.clientId,
    items := body.items.getD invoice.items,
    subtotal := body.subtotal.getD invoice.subtotal,
    tax := body.tax.getD invoice.tax,
    discount := body.discount.getD invoice.discount,
    total := body.total.getD invoice.total,
    status := body.status.getD invoice.status,
    dueDate := body.dueDate.getD invoice.dueDate,
    notes := body.notes.getD invoice.notes }

/-- The handler of `PUT /:id` (lines 174-214) for the authenticated user
`userId`. -/
def updateRoute (db : Db) (userId : String) (id : String) (body : UpdateBody) : Outcome :=
  match db.findById id with
  | none => ⟨.error 404 "Invoice not found", none⟩
  | some invoice =>
    if invoice.userId ≠ userId then ⟨.error 403 "Not authorized", none⟩
    else
      let invoice : InvoiceDoc :=
        match body.items with
        | some items => { invoice with items := items, subtotal := sumItems items }
        | none => invoice
      let invoice : InvoiceDoc :=
        match body.tax with
        | some tax => { invoice with tax := tax }
        | none => invoice
      let invoice : InvoiceDoc :=
        match body.discount with
        | some discount => { invoice with discount := discount }
        | none => invoice
      let invoice : InvoiceDoc :=
        { invoice with total := invoice.subtotal + invoice.tax - invoice.discount }
      let invoice := objectAssign invoice body
      match db.saveError invoice with
      | some message => ⟨.error 400 message, none⟩
      | none => ⟨.data 200 invoice, some invoice⟩

/-! ## A sample host and the records of `scripts/seed.js` -/

/-- The scientific form of `Number::toString` for an integer of 22 digits or
more: first digit, the further significant digits after a point, `e+`, and the
exponent. -/
def sciNotation (n : ℕ) : String :=
  let ds := Nat.toDigits 10 n
  let e := ds.length - 1
  match (ds.reverse.dropWhile fun c => c = '0').reverse with
  | [] => "0"
  | [d] => String.mk [d] ++ "e+" ++ Nat.repr e
  | d :: more => String.mk (d :: '.' :: more) ++ "e+" ++ Nat.repr e

/-- The function `Number::toString` on the numbers the examples print:
non-negative integers whose own decimal digits are the digits JavaScript
prints (all below `2^53`, and the powers of ten).  Plain digits below `10^21`,
scientific form from there on. -/
def sampleNumberToString (x : ℚ) : String :=
  let n := (⌊x⌋).toNat
  if n < 10 ^ 21 then Nat.repr n else sciNotation n

/-- A host for the examples: an A4 page as pdfkit sizes it (595.28 by 841.89),
no image loads, and a date prints as its day number. -/
def sampleHost : Runtime where
  pageWidth := 59528 / 100
  pageHeight := 84189 / 100
  imageLoads := fun _ => false
  toLocaleDateString := fun d => "day " ++ toString (d / 86400000)
  numberToString := sampleNumberToString

/-- The company settings of `seed.js` (lines 31-37). -/
def seedCompany : Company where
  businessName := some "Test Business"
  address := some "123 Business St"
  phone := some "555-0100"
  email := some "business@example.com"
  logo := none

/-- The first client of `seed.js` (lines 41-47). -/
def seedClient1 : Client where
  name := some "Acme Corp"
  email := some "contact@acme.com"
  phone := some "555-0101"
  address := some "456 Corp Ave"

/-- The second client of `seed.js` (lines 48-54). -/
def seedClient2 : Client where
  name := some "Tech Solutions"
  email := some "info@techsolutions.com"
  phone := some "555-0102"
  address := some "789 Tech Blvd"

/-- The first invoice of `seed.js` (lines 61-75), its client populated; the
creation time is taken as 0. -/
def seedInvoice1 : Invoice where
  invoiceNumber := "INV-2802-4081-00001"
  clientId := some seedClient1
  items := [⟨"Web Design", 1, 1500⟩, ⟨"Development", 40, 100⟩]
  subtotal := 5500
  tax := 550
  discount := 0
  total := 6050
  status := "Paid"
  invoiceDate := 0
  dueDate := 30 * 24 * 60 * 60 * 1000
  notes := ""

/-- The second invoice of `seed.js` (lines 76-87), its client populated. -/
def seedInvoice2 : Invoice where
  invoiceNumber := "INV-2026-7401-00002"
  clientId := some seedClient2
  items := [⟨"Consulting", 20, 150⟩]
  subtotal := 3000
  tax := 300
  discount := 100
  total := 3200
  status := "Pending"
  invoiceDate := 0
  dueDate := 14 * 24 * 60 * 60 * 1000
  notes := ""

/-- An invoice with 13 items, the one-item seed invoice with its item repeated. -/
def thirteenItems : Invoice :=
  { seedInvoice2 with items := List.replicate 13 ⟨"Consulting", 20, 150⟩ }

/-- The first seed invoice as stored. -/
def seedDoc1 : InvoiceDoc :=
  { userId := "user1", invoiceNumber := "INV-2802-4081-00001", clientId := "client1",
    items := [⟨"Web Design", 1, 1500⟩, ⟨"Development", 40, 100⟩], subtotal := 5500,
    tax := 550, discount := 0, total := 6050, status := "Paid",
    dueDate := "2026-12-04", notes := "" }

/-- The first seed invoice with its total replaced by 1. -/
def overwrittenDoc : InvoiceDoc := { seedDoc1 with total := 1 }

/-- A database for the examples: the two seed clients belong to `user1`, the
first seed invoice is stored under `inv1`, and no write fails. -/
def seedDb : Db where
  clientOwner := fun id => if id = "client1" ∨ id = "client2" then some "user1" else none
  generateInvoiceNumber := fun _ => "INV-user1-202611-00003"
  createError := fun _ => none
  findById := fun id => if id = "inv1" then some seedDoc1 else none
  saveError := fun _ => none

/-- An update body with the single field `total: 1`. -/
def totalOnlyBody : UpdateBody :=
  { userId := none, invoiceNumber := none, clientId := none, items := none, subtotal := none,
    tax := none, discount := none, total := some 1, status := none, dueDate := none,
    notes := none }

/-- A company profile with a logo, for the examples. -/
def logoCompany : Company := { seedCompany with logo := some "logo.png" }

/-- The longest invoice: 13 items, a discount, notes, and a client with all its
fields. -/
def fullInvoice : Invoice := { thirteenItems with notes := "Thank you." }

/-! ## Quantities and shapes the statements use -/

/-- Number of separator lines among the calls of the rows of the table: one is
stroked at the end of every drawn row. -/
def rowSeparators (R : Runtime) (invoice : Invoice) (company : Company) : ℕ :=
  ((renderedRows R invoice (layout R invoice company).tableHeader.y).flatten).count stroke

/-- Height the table consumes: the cursor after the rows (line 174) minus the
cursor before the header of the table (line 127). -/
def tableConsumed (R : Runtime) (invoice : Invoice) (company : Company) : ℚ :=
  (layout R invoice company).tableRows.y - (layout R invoice company).dates.y

/-- A row of the totals as the page shows it: the label on the left and the
value on the right, at height `y`, in the regular face. -/
def totalsRow (R : Runtime) (label value : String) (y : ℚ) : List DrawCall :=
  [font "Helvetica", fontSize 9, fillColor totalsLabelColor,
    text label (totalsX R) y (some (totalsWidth - 60)) (some "left"),
    font "Helvetica", fillColor totalsValueColor,
    text value (totalsX R + 60) y (some (totalsWidth - 60)) (some "right")]

/-- The separator line of the totals at height `y`. -/
def totalsSeparator (R : Runtime) (y : ℚ) : List DrawCall :=
  [moveTo (totalsX R) y, lineTo (right R) y, strokeColor tableBorder, stroke]

/-- The TOTAL box with its top at `y`, showing the text `value`. -/
def totalBox (R : Runtime) (value : String) (y : ℚ) : List DrawCall :=
  [rect (totalsX R) y totalsWidth totalBoxH, fill totalBoxBg,
    fillColor totalBoxText, font "Helvetica-Bold", fontSize 11,
    text "TOTAL" (totalsX R + 8) (y + 6) none none,
    text value (totalsX R + 60) (y + 6) (some (totalsWidth - 60)) (some "right"),
    fillColor "#000"]

/-- Those of the optional fields `fs` that are present, in order. -/
def presentFields (fs : List (Option String)) : List String :=
  (fs.filter fun f => truthy f).map orEmpty

/-- Content lines of a party column whose heading is at `y`: line `j` (from 0) is
drawn at `y + 14 + 12 j`, in the column at `x` of width `w`. -/
def columnLines (x w y : ℚ) (lines : List String) : List DrawCall :=
  lines.mapIdx fun j s => text s x (y + 14 + 12 * j) (some w) none

/-- The lines of the INVOICE TO column: the name, then the present fields among
email, phone and address. -/
def clientLines (invoice : Invoice) : List String :=
  orEmpty (invoice.clientId.bind Client.name) ::
    presentFields [invoice.clientId.bind Client.email, invoice.clientId.bind Client.phone,
      invoice.clientId.bind Client.address]

/-- The lines of the FROM column: the business name, then the present fields
among email, phone and address. -/
def companyLines (company : Company) : List String :=
  orEmpty company.businessName ::
    presentFields [company.email, company.phone, company.address]

/-- The stored totals agree with the stored items: the subtotal is the sum of
quantity times price, the total is subtotal plus tax minus discount. -/
def TotalsInvariant (d : InvoiceDoc) : Prop :=
  d.subtotal = (d.items.map fun item => item.quantity * item.price).sum ∧
    d.total = d.subtotal + d.tax - d.discount

theorem rows_length (invoice : Invoice) :
    (rows invoice).length = min 12 invoice.items.length := by
  simp [rows, maxRows]

theorem renderedRows_length (R : Runtime) (invoice : Invoice) (y : ℚ) :
    (renderedRows R invoice y).length = min 12 invoice.items.length := by
  simp [renderedRows, rows_length]

theorem renderedRows_getElem? (R : Runtime) (invoice : Invoice) (y : ℚ) (i : ℕ) :
    (renderedRows R invoice y)[i]? =
      if i < 12 then (invoice.items[i]?).map fun item => rowCalls R y item i else none := by
  simp only [renderedRows, rows, maxRows, List.getElem?_mapIdx, List.getElem?_take]
  split <;> simp

theorem count_stroke_rowCalls (R : Runtime) (y : ℚ) (item : LineItem) (idx : ℕ) :
    (rowCalls R y item idx).count stroke = 1 := by
  simp [rowCalls, List.count_cons]

theorem count_stroke_renderedRows (R : Runtime) (invoice : Invoice) (y : ℚ) :
    (renderedRows R invoice y).flatten.count stroke = (renderedRows R invoice y).length := by
  have key : ∀ (l : List LineItem) (f : ℕ → LineItem → List DrawCall),
      (∀ i a, (f i a).count stroke = 1) → (l.mapIdx f).flatten.count stroke = l.length := by
    intro l
    induction l with
    | nil => intro f _; simp
    | cons a l ih =>
      intro f hf
      rw [List.mapIdx_cons, List.flatten_cons, List.count_append, hf 0 a,
        ih (fun i => f (i + 1)) (fun i b => hf (i + 1) b)]
      simp [Nat.add_comm]
  rw [renderedRows, List.length_mapIdx]
  exact key _ _ (fun i a => count_stroke_rowCalls R y a i)

theorem rows_take (invoice : Invoice) :
    rows { invoice with items := invoice.items.take 12 } = rows invoice := by
  simp [rows, maxRows, List.take_take]

theorem layout_take (R : Runtime) (invoice : Invoice) (company : Company) :
    layout R { invoice with items := invoice.items.take 12 } company =
      layout R invoice company := by
  have hr := rows_take invoice
  simp only [layout, headerBlock, partyBlock, clientColumn, datesBlock, tableRowsBlock,
    renderedRows, totalsBlock, notesBlock, hr]

/-! ## C1: rows drawn and height of the table for at most 12 items -/

/-- C1 (as amended): for an invoice with N items, N at most 12, and any company
profile, exactly N rows are drawn (N runs of the row callback, N separator
lines), the header bar is 24 high, and the cursor moves down across the table by
24 + 20 N plus the fixed gaps 4 (above the bar), 6 (below it) and 12 (below the
rows), that is by 46 + 20 N. -/
theorem C1_rows_and_height (R : Runtime) (invoice : Invoice) (company : Company)
    (hN : invoice.items.length ≤ 12) :
    (renderedRows R invoice (layout R invoice company).tableHeader.y).length
        = invoice.items.length ∧
      rowSeparators R invoice company = invoice.items.length ∧
      headerHeight = 24 ∧ rowHeight = 20 ∧
      tableConsumed R invoice company
        = headerHeight + invoice.items.length * rowHeight + (4 + 6 + 12) := by
  refine ⟨?_, ?_, rfl, rfl, ?_⟩
  · rw [renderedRows_length]; omega
  · rw [rowSeparators, count_stroke_renderedRows, renderedRows_length]; omega
  · have h : (rows invoice).length = invoice.items.length := by rw [rows_length]; omega
    simp only [tableConsumed, layout, tableRowsBlock, tableHeaderBlock, h]
    ring

/-- C1, witness: the two-item seed invoice draws 2 rows and its table consumes
24 + 2 * 20 + 22 = 86. -/
theorem C1_rows_and_height_witness :
    (renderedRows sampleHost seedInvoice1
        (layout sampleHost seedInvoice1 seedCompany).tableHeader.y).length = 2 ∧
      rowSeparators sampleHost seedInvoice1 seedCompany = 2 ∧
      tableConsumed sampleHost seedInvoice1 seedCompany = 86 := by
  have h := C1_rows_and_height sampleHost seedInvoice1 seedCompany (by decide)
  refine ⟨h.1, h.2.1, ?_⟩
  rw [h.2.2.2.2]
  simp [headerHeight, rowHeight, seedInvoice1]
  norm_num

/-- C1, counterexample: for the two-item seed invoice the table consumes 86, not
24 + 2 * 20 = 64; no measure of the table drawn equals 64 (from the top of the
header bar to the end of the last row is 70). -/
theorem C1_height_counterexample :
    seedInvoice1.items.length = 2 ∧
      tableConsumed sampleHost seedInvoice1 seedCompany = 86 ∧
      tableConsumed sampleHost seedInvoice1 seedCompany ≠ headerHeight + 2 * rowHeight ∧
      (layout sampleHost seedInvoice1 seedCompany).tableRows.y - 12
        - ((layout sampleHost seedInvoice1 seedCompany).dates.y + 4) = 70 := by
  decide!

/-! ## C2: more than 12 items -/

theorem generate_take (R : Runtime) (invoice : Invoice) (company : Company) :
    generateInvoicePDF R { invoice with items := invoice.items.take 12 } company =
      generateInvoicePDF R invoice company := by
  simp only [generateInvoicePDF, layout_take]

/-- C2: for an invoice with more than 12 items the promise is resolved (no
error), exactly 12 rows are drawn, the i-th of them being the row of the i-th
item, and the calls and every cursor (that after the table included) are those
of the same invoice with its items cut to the first 12. -/
theorem C2_more_than_twelve (R : Runtime) (invoice : Invoice) (company : Company)
    (hN : 12 < invoice.items.length) :
    (∃ calls, generateInvoicePDF R invoice company = .ok calls) ∧
      (renderedRows R invoice (layout R invoice company).tableHeader.y).length = 12 ∧
      rowSeparators R invoice company = 12 ∧
      (∀ i, i < 12 →
        (renderedRows R invoice (layout R invoice company).tableHeader.y)[i]? =
          (invoice.items[i]?).map fun item =>
            rowCalls R (layout R invoice company).tableHeader.y item i) ∧
      generateInvoicePDF R invoice company =
        generateInvoicePDF R { invoice with items := invoice.items.take 12 } company ∧
      layout R invoice company =
        layout R { invoice with items := invoice.items.take 12 } company ∧
      (layout R invoice company).tableRows.y =
        (layout R { invoice with items := invoice.items.take 12 } company).tableRows.y ∧
      tableConsumed R invoice company = headerHeight + 12 * rowHeight + (4 + 6 + 12) := by
  refine ⟨⟨_, rfl⟩, ?_, ?_, ?_, (generate_take R invoice company).symm,
    (layout_take R invoice company).symm, ?_, ?_⟩
  · rw [renderedRows_length]; omega
  · rw [rowSeparators, count_stroke_renderedRows, renderedRows_length]; omega
  · intro i hi
    rw [renderedRows_getElem?, if_pos hi]
  · rw [layout_take]
  · have h : (rows invoice).length = 12 := by rw [rows_length]; omega
    simp only [tableConsumed, layout, tableRowsBlock, tableHeaderBlock, h]
    push_cast
    ring

/-- C2, witness: an invoice with 13 items draws 12 rows and produces the calls
of its first 12 items. -/
theorem C2_more_than_twelve_witness :
    thirteenItems.items.length = 13 ∧
      (renderedRows sampleHost thirteenItems
        (layout sampleHost thirteenItems seedCompany).tableHeader.y).length = 12 ∧
      generateInvoicePDF sampleHost thirteenItems seedCompany =
        generateInvoicePDF sampleHost
          { thirteenItems with items := thirteenItems.items.take 12 } seedCompany :=
  have h := C2_more_than_twelve sampleHost thirteenItems seedCompany (by decide)
  ⟨by decide, h.2.1, h.2.2.2.2.1⟩

/-! ## C3: what a row draws -/

theorem empty_append (s : String) : "" ++ s = s := by
  apply String.ext
  simp [String.data_append]

theorem totals_with_discount (R : Runtime) (invoice : Invoice) (y : ℚ)
    (hd : invoice.discount ≠ 0) :
    (totalsBlock R invoice y).calls =
      totalsRow R "SUB-TOTAL" ("$" ++ toFixed R invoice.subtotal 2) y ++
      totalsRow R ("TAX ($" ++ toFixed R invoice.tax 2 ++ ")")
        ("$" ++ toFixed R invoice.tax 2) (y + 16) ++
      totalsRow R "DISCOUNT" ("-$" ++ toFixed R invoice.discount 2) (y + 32) ++
      totalsSeparator R (y + 48) ++
      totalBox R ("$" ++ toFixed R invoice.total 2) (y + 56) := by
  simp only [totalsBlock, drawTotalsRow, totalsRow, totalsSeparator, totalBox, hd, ne_eq,
    not_false_eq_true, if_true, empty_append, List.nil_append, List.append_assoc,
    List.cons_append, Bool.false_eq_true, if_false]
  norm_num
  exact ⟨by ring, by ring, by ring⟩

theorem totals_without_discount (R : Runtime) (invoice : Invoice) (y : ℚ)
    (hd : invoice.discount = 0) :
    (totalsBlock R invoice y).calls =
      totalsRow R "SUB-TOTAL" ("$" ++ toFixed R invoice.subtotal 2) y ++
      totalsRow R ("TAX ($" ++ toFixed R invoice.tax 2 ++ ")")
        ("$" ++ toFixed R invoice.tax 2) (y + 16) ++
      totalsSeparator R (y + 32) ++
      totalBox R ("$" ++ toFixed R invoice.total 2) (y + 40) := by
  simp only [totalsBlock, drawTotalsRow, totalsRow, totalsSeparator, totalBox, hd, ne_eq,
    not_true_eq_false, if_false, empty_append, List.nil_append, List.append_assoc,
    List.cons_append, Bool.false_eq_true]
  norm_num
  exact ⟨by ring, by ring⟩

/-- C6: the totals are drawn in the order SUB-TOTAL, TAX, DISCOUNT (only when
the discount is not 0), each 16 below the previous, then the separator line,
then the TOTAL box with the grand total; the label of the TAX row is "TAX ($t)"
and its value "$t" for the same text t, the tax to two decimals. -/
theorem C6_totals_order (R : Runtime) (invoice : Invoice) (company : Company) (y : ℚ) :
    (totalsBlock R invoice y).calls =
      totalsRow R "SUB-TOTAL" (dollars R invoice.subtotal) y ++
      totalsRow R ("TAX ($" ++ toFixed R invoice.tax 2 ++ ")")
        ("$" ++ toFixed R invoice.tax 2) (y + 16) ++
      (if invoice.discount ≠ 0 then
        totalsRow R "DISCOUNT" ("-$" ++ toFixed R invoice.discount 2) (y + 16 + 16) else []) ++
      totalsSeparator R (y + 16 + 16 + (if invoice.discount ≠ 0 then 16 else 0)) ++
      totalBox R (dollars R invoice.total)
        (y + 16 + 16 + (if invoice.discount ≠ 0 then 16 else 0) + 8) ∧
    ∃ before after, generateInvoicePDF R invoice company =
      .ok (before ++ (totalsBlock R invoice (layout R invoice company).tableRows.y).calls
        ++ after) := by
  constructor
  · by_cases hd : invoice.discount = 0
    · have e1 : y + 16 + 16 + 0 = y + 32 := by ring
      have e2 : y + 32 + 8 = y + 40 := by ring
      rw [totals_without_discount R invoice y hd]
      simp only [hd, ne_eq, not_true_eq_false, if_false, dollars, List.append_nil, e1, e2]
    · have e0 : y + 16 + 16 = y + 32 := by ring
      have e1 : y + 32 + 16 = y + 48 := by ring
      have e2 : y + 48 + 8 = y + 56 := by ring
      rw [totals_with_discount R invoice y hd]
      simp only [hd, ne_eq, not_false_eq_true, if_true, dollars, e0, e1, e2]
  · refine ⟨(layout R invoice company).header.calls ++ (layout R invoice company).party.calls ++
        (layout R invoice company).dates.calls ++ (layout R invoice company).tableHeader.calls ++
        (layout R invoice company).tableRows.calls,
      (layout R invoice company).notes.calls ++ (layout R invoice company).footer.calls ++
        [end_], ?_⟩
    simp only [generateInvoicePDF, Layout.calls, layout, List.append_assoc]

/-! ## C7: the colour of the status pill -/

/-- C7: the colour of a status is green for "Paid", amber for "Pending", red for
"Overdue" and gray for any other string (for "paid" and "PAID" too: the match is
exact); the pill of the dates strip is a rounded rectangle filled with that
colour, and the status text is drawn in it. -/
theorem C7_status_color (R : Runtime) (invoice : Invoice) (company : Company) (s : String) :
    getStatusColor "Paid" = "#22bb33" ∧ getStatusColor "Pending" = "#f0ad4e" ∧
      getStatusColor "Overdue" = "#d9534f" ∧
      (s ≠ "Paid" → s ≠ "Pending" → s ≠ "Overdue" → getStatusColor s = "#666") ∧
      getStatusColor "paid" = "#666" ∧ getStatusColor "PAID" = "#666" ∧
      (∃ before after, (layout R invoice company).dates.calls = before ++
        [roundedRect (statusLabelX R) ((layout R invoice company).party.y + 24 + 2) 60 16 3,
          fill (getStatusColor invoice.status),
          fillColor "#fff", font "Helvetica-Bold", fontSize 9,
          text invoice.status (statusLabelX R + 6) ((layout R invoice company).party.y + 24 + 4)
            none none] ++ after) ∧
      ∃ before after, generateInvoicePDF R invoice company =
        .ok (before ++ (layout R invoice company).dates.calls ++ after) := by
  refine ⟨by decide, by decide, by decide, ?_, by decide, by decide, ?_, ?_⟩
  · intro h1 h2 h3
    simp [getStatusColor, h1, h2, h3]
  · refine ⟨[rect left (layout R invoice company).party.y (contentWidth R) datesHeaderHeight,
        fill tableHeaderBg, fillColor tableHeaderText, font "Helvetica-Bold", fontSize 10,
        text "Invoice Date" (leftColX + 10) ((layout R invoice company).party.y + 6) none none,
        text "Due Date" (rightColX R + 10) ((layout R invoice company).party.y + 6) none none,
        text "Status" (statusLabelX R) ((layout R invoice company).party.y + 6) none none,
        font "Helvetica", fontSize 9, fillColor "#111827",
        text (R.toLocaleDateString invoice.invoiceDate) (leftColX + 10)
          ((layout R invoice company).party.y + datesHeaderHeight + 4) none none,
        text (R.toLocaleDateString invoice.dueDate) (rightColX R + 10)
          ((layout R invoice company).party.y + datesHeaderHeight + 4) none none],
      [fillColor "#000",
        moveTo (left + 2) ((layout R invoice company).party.y + datesHeaderHeight
          + datesRowHeight - 4),
        lineTo (left + contentWidth R - 2) ((layout R invoice company).party.y
          + datesHeaderHeight + datesRowHeight - 4),
        strokeColor tableBorder, stroke], ?_⟩
    simp [layout, datesBlock, datesHeaderHeight, pillW, pillH]
  · refine ⟨(layout R invoice company).header.calls ++ (layout R invoice company).party.calls,
      (layout R invoice company).tableHeader.calls ++ (layout R invoice company).tableRows.calls ++
        (layout R invoice company).totals.calls ++ (layout R invoice company).notes.calls ++
        (layout R invoice company).footer.calls ++ [end_], ?_⟩
    simp only [generateInvoicePDF, Layout.calls, List.append_assoc]

/-- C7, witness: the first seed invoice, of status "Paid", has a green pill with
the text "Paid". -/
theorem C7_status_color_witness :
    seedInvoice1.status = "Paid" ∧
      ∃ before after, (layout sampleHost seedInvoice1 seedCompany).dates.calls = before ++
        [roundedRect (statusLabelX sampleHost)
            ((layout sampleHost seedInvoice1 seedCompany).party.y + 24 + 2) 60 16 3,
          fill "#22bb33",
          fillColor "#fff", font "Helvetica-Bold", fontSize 9,
          text "Paid" (statusLabelX sampleHost + 6)
            ((layout sampleHost seedInvoice1 seedCompany).party.y + 24 + 4) none none]
        ++ after :=
  ⟨rfl, (C7_status_color sampleHost seedInvoice1 seedCompany "Paid").2.2.2.2.2.2.1⟩

/-! ## C8 and C9: the party block -/

theorem clientColumn_calls (R : Runtime) (invoice : Invoice) (y : ℚ) :
    (clientColumn R invoice y).calls =
      [font "Helvetica-Bold", fontSize normalText, fillColor "#111827",
        text "INVOICE TO" leftColX y none none,
        font "Helvetica", fontSize smallText, fillColor "#111827"] ++
      columnLines leftColX (colWidth R) y (clientLines invoice) ∧
    (clientColumn R invoice y).y = y + 14 + 12 * (clientLines invoice).length := by
  cases h1 : truthy (invoice.clientId.bind Client.email) <;>
  cases h2 : truthy (invoice.clientId.bind Client.phone) <;>
  cases h3 : truthy (invoice.clientId.bind Client.address) <;>
  simp [clientColumn, clientLines, presentFields, columnLines, h1, h2, h3, List.mapIdx_cons] <;>
  norm_num <;> ring_nf <;> simp

theorem companyColumn_calls (R : Runtime) (company : Company) (y : ℚ) :
    (companyColumn R company y).calls =
      [font "Helvetica-Bold", fontSize normalText,
        text "FROM" (rightColX R) y none none,
        font "Helvetica", fontSize smallText, fillColor "#111827"] ++
      columnLines (rightColX R) (colWidth R) y (companyLines company) ∧
    (companyColumn R company y).y = y + 14 + 12 * (companyLines company).length := by
  cases h1 : truthy company.email <;>
  cases h2 : truthy company.phone <;>
  cases h3 : truthy company.address <;>
  simp [companyColumn, companyLines, presentFields, columnLines, h1, h2, h3,
    List.mapIdx_cons] <;>
  norm_num <;> ring_nf <;> simp

theorem columnLines_getElem? (x w y : ℚ) (lines : List String) (j : ℕ) :
    (columnLines x w y lines)[j]? =
      (lines[j]?).map fun s => text s x (y + 14 + 12 * j) (some w) none := by
  simp [columnLines, List.getElem?_mapIdx]

theorem columnLines_text_y (x w y : ℚ) (lines : List String) (s : String) (tx ty : ℚ)
    (tw : Option ℚ) (al : Option String)
    (h : text s tx ty tw al ∈ columnLines x w y lines) :
    ty + 12 ≤ y + 14 + 12 * lines.length := by
  rw [columnLines, List.mem_mapIdx] at h
  obtain ⟨j, hj, e⟩ := h
  simp only [text.injEq] at e
  have hj2 : (j : ℚ) + 1 ≤ lines.length := by exact_mod_cast hj
  linarith [e.2.2.1]

/-- C8: in each party column the name line is drawn 14 below the heading and
each present (non-empty) field among email, phone and address, in that order,
12 below the previous drawn line: line j of the column is at y + 14 + 12 j, the
lines being the name followed by the present fields.  A column with k present
fields has 1 + k content lines and leaves its cursor 12 below the last; with
the three fields absent the only content line is the name. -/
theorem C8_party_lines (R : Runtime) (invoice : Invoice) (company : Company) (y : ℚ) :
    ((clientColumn R invoice y).calls =
        [font "Helvetica-Bold", fontSize normalText, fillColor "#111827",
          text "INVOICE TO" leftColX y none none,
          font "Helvetica", fontSize smallText, fillColor "#111827"] ++
        columnLines leftColX (colWidth R) y (clientLines invoice)) ∧
      ((companyColumn R company y).calls =
        [font "Helvetica-Bold", fontSize normalText,
          text "FROM" (rightColX R) y none none,
          font "Helvetica", fontSize smallText, fillColor "#111827"] ++
        columnLines (rightColX R) (colWidth R) y (companyLines company)) ∧
      (∀ j : ℕ, (columnLines leftColX (colWidth R) y (clientLines invoice))[j]? =
        ((clientLines invoice)[j]?).map fun s =>
          text s leftColX (y + 14 + 12 * j) (some (colWidth R)) none) ∧
      (∀ j : ℕ, (columnLines (rightColX R) (colWidth R) y (companyLines company))[j]? =
        ((companyLines company)[j]?).map fun s =>
          text s (rightColX R) (y + 14 + 12 * j) (some (colWidth R)) none) ∧
      (columnLines leftColX (colWidth R) y (clientLines invoice)).length =
        1 + (presentFields [invoice.clientId.bind Client.email,
          invoice.clientId.bind Client.phone, invoice.clientId.bind Client.address]).length ∧
      (columnLines (rightColX R) (colWidth R) y (companyLines company)).length =
        1 + (presentFields [company.email, company.phone, company.address]).length ∧
      (truthy (invoice.clientId.bind Client.email) = false →
        truthy (invoice.clientId.bind Client.phone) = false →
        truthy (invoice.clientId.bind Client.address) = false →
        columnLines leftColX (colWidth R) y (clientLines invoice) =
          [text (orEmpty (invoice.clientId.bind Client.name)) leftColX (y + 14)
            (some (colWidth R)) none]) ∧
      (truthy company.email = false → truthy company.phone = false →
        truthy company.address = false →
        columnLines (rightColX R) (colWidth R) y (companyLines company) =
          [text (orEmpty company.businessName) (rightColX R) (y + 14)
            (some (colWidth R)) none]) := by
  refine ⟨(clientColumn_calls R invoice y).1, (companyColumn_calls R company y).1,
    fun j => columnLines_getElem? _ _ _ _ j, fun j => columnLines_getElem? _ _ _ _ j,
    ?_, ?_, ?_, ?_⟩
  · simp [columnLines, clientLines, Nat.add_comm]
  · simp [columnLines, companyLines, Nat.add_comm]
  · intro h1 h2 h3
    simp [columnLines, clientLines, presentFields, h1, h2, h3, List.mapIdx_cons]
  · intro h1 h2 h3
    simp [columnLines, companyLines, presentFields, h1, h2, h3, List.mapIdx_cons]

/-- C8, witness: a client with a name only has one content line, and the seed
company, with its three fields, has four. -/
theorem C8_party_lines_witness :
    columnLines leftColX (colWidth sampleHost) 80
        (clientLines { seedInvoice1 with clientId := some ⟨some "Acme Corp", none, none, none⟩ })
        = [text "Acme Corp" leftColX (80 + 14) (some (colWidth sampleHost)) none] ∧
      (columnLines (rightColX sampleHost) (colWidth sampleHost) 80
        (companyLines seedCompany)).length = 4 :=
  have h := C8_party_lines sampleHost
    { seedInvoice1 with clientId := some ⟨some "Acme Corp", none, none, none⟩ } seedCompany 80
  ⟨h.2.2.2.2.2.2.1 (by decide) (by decide) (by decide), by rw [h.2.2.2.2.2.1]; decide⟩

theorem clientColumn_text_y (R : Runtime) (invoice : Invoice) (y : ℚ) (s : String)
    (tx ty : ℚ) (tw : Option ℚ) (al : Option String)
    (h : text s tx ty tw al ∈ (clientColumn R invoice y).calls) :
    ty + 12 ≤ (clientColumn R invoice y).y := by
  rw [(clientColumn_calls R invoice y).1, List.mem_append] at h
  rw [(clientColumn_calls R invoice y).2]
  rcases h with h | h
  · simp at h
    have hn : (0 : ℚ) ≤ ((clientLines invoice).length : ℚ) := Nat.cast_nonneg _
    linarith [h.2.2.1]
  · exact columnLines_text_y _ _ _ _ s tx ty tw al h

theorem companyColumn_text_y (R : Runtime) (company : Company) (y : ℚ) (s : String)
    (tx ty : ℚ) (tw : Option ℚ) (al : Option String)
    (h : text s tx ty tw al ∈ (companyColumn R company y).calls) :
    ty + 12 ≤ (companyColumn R company y).y := by
  rw [(companyColumn_calls R company y).1, List.mem_append] at h
  rw [(companyColumn_calls R company y).2]
  rcases h with h | h
  · simp at h
    have hn : (0 : ℚ) ≤ ((companyLines company).length : ℚ) := Nat.cast_nonneg _
    linarith [h.2.2.1]
  · exact columnLines_text_y _ _ _ _ s tx ty tw al h

/-- C9: the cursor after the party block is max(leftCursor, rightCursor) + 12,
the two being the final cursors of the INVOICE TO and FROM columns; the bar of
the dates strip has its top at that cursor, so it lies at least 12 below the y
of every text drawn in either column, whatever fields are present. -/
theorem C9_party_cursor (R : Runtime) (invoice : Invoice) (company : Company) :
    (layout R invoice company).party.y =
        max (clientColumn R invoice (layout R invoice company).header.y).y
          (companyColumn R company (layout R invoice company).header.y).y + 12 ∧
      (layout R invoice company).party.calls =
        (clientColumn R invoice (layout R invoice company).header.y).calls ++
          (companyColumn R company (layout R invoice company).header.y).calls ∧
      (∃ more, (layout R invoice company).dates.calls =
        rect left (layout R invoice company).party.y (contentWidth R) 24 :: more) ∧
      ∀ (s : String) (tx ty : ℚ) (tw : Option ℚ) (al : Option String),
        text s tx ty tw al ∈ (layout R invoice company).party.calls →
          ty + 12 ≤ (layout R invoice company).party.y := by
  refine ⟨rfl, rfl, ⟨_, rfl⟩, ?_⟩
  intro s tx ty tw al h
  have hp : (layout R invoice company).party.y =
      max (clientColumn R invoice (layout R invoice company).header.y).y
        (companyColumn R company (layout R invoice company).header.y).y + 12 := rfl
  have hc : (layout R invoice company).party.calls =
      (clientColumn R invoice (layout R invoice company).header.y).calls ++
        (companyColumn R company (layout R invoice company).header.y).calls := rfl
  rw [hc, List.mem_append] at h
  rw [hp]
  rcases h with h | h
  · have h1 := clientColumn_text_y R invoice _ s tx ty tw al h
    have h2 := le_max_left (clientColumn R invoice (layout R invoice company).header.y).y
      (companyColumn R company (layout R invoice company).header.y).y
    linarith
  · have h1 := companyColumn_text_y R company _ s tx ty tw al h
    have h2 := le_max_right (clientColumn R invoice (layout R invoice company).header.y).y
      (companyColumn R company (layout R invoice company).header.y).y
    linarith

/-- C9, witness: a client with a name only beside the seed company, which has
all its fields: the left column ends at 106, the right one at 142, and the
cursor after the block is 154. -/
theorem C9_party_cursor_witness :
    (clientColumn sampleHost
        { seedInvoice1 with clientId := some ⟨some "Acme Corp", none, none, none⟩ } 80).y = 106 ∧
      (companyColumn sampleHost seedCompany 80).y = 142 ∧
      (layout sampleHost
        { seedInvoice1 with clientId := some ⟨some "Acme Corp", none, none, none⟩ }
        seedCompany).party.y = 154 :=
  have h := (C9_party_cursor sampleHost
    { seedInvoice1 with clientId := some ⟨some "Acme Corp", none, none, none⟩ } seedCompany).1
  ⟨by decide!, by decide!, by rw [h]; decide!⟩

/-! ## C10: the footer -/

/-- C10: the divider of the footer is drawn at y = pageHeight - 90 and the
closing message at y = pageHeight - 80, from the left bound over the content
width with centred alignment; these are the last calls before the document is
closed, and they are the same for every invoice and company profile. -/
theorem C10_footer_fixed (R : Runtime) (invoice : Invoice) (company : Company) :
    (layout R invoice company).footer.calls =
        [moveTo left (R.pageHeight - 90), lineTo (right R) (R.pageHeight - 90),
          strokeColor tableBorder, stroke,
          font "Helvetica-Oblique", fontSize 10, fillColor "#444",
          text "Thank You For Your Business" left (R.pageHeight - 80)
            (some (contentWidth R)) (some "center")] ∧
      (∃ before, generateInvoicePDF R invoice company = .ok (before ++
        [moveTo left (R.pageHeight - 90), lineTo (right R) (R.pageHeight - 90),
          strokeColor tableBorder, stroke,
          font "Helvetica-Oblique", fontSize 10, fillColor "#444",
          text "Thank You For Your Business" left (R.pageHeight - 80)
            (some (contentWidth R)) (some "center")] ++ [end_])) ∧
      ∀ (invoice2 : Invoice) (company2 : Company),
        (layout R invoice2 company2).footer.calls = (layout R invoice company).footer.calls := by
  have e : R.pageHeight - 90 + 10 = R.pageHeight - 80 := by ring
  have hf : ∀ (i : Invoice) (c : Company), (layout R i c).footer.calls =
      [moveTo left (R.pageHeight - 90), lineTo (right R) (R.pageHeight - 90),
        strokeColor tableBorder, stroke,
        font "Helvetica-Oblique", fontSize 10, fillColor "#444",
        text "Thank You For Your Business" left (R.pageHeight - 80)
          (some (contentWidth R)) (some "center")] := by
    intro i c
    simp only [layout, footerBlock, e]
  refine ⟨hf invoice company, ?_, fun i c => by rw [hf i c, hf invoice company]⟩
  refine ⟨(layout R invoice company).header.calls ++ (layout R invoice company).party.calls ++
    (layout R invoice company).dates.calls ++ (layout R invoice company).tableHeader.calls ++
    (layout R invoice company).tableRows.calls ++ (layout R invoice company).totals.calls ++
    (layout R invoice company).notes.calls, ?_⟩
  rw [← hf invoice company]
  simp only [generateInvoicePDF, Layout.calls, List.append_assoc]

/-- C10, witness: on the A4 page (height 841.89) the divider is at 751.89 and
the message at 761.89, for the two seed invoices alike. -/
theorem C10_footer_fixed_witness :
    (layout sampleHost seedInvoice1 seedCompany).footer.calls =
        [moveTo 30 (75189 / 100), lineTo (56528 / 100) (75189 / 100),
          strokeColor "#e6e6e6", stroke,
          font "Helvetica-Oblique", fontSize 10, fillColor "#444",
          text "Thank You For Your Business" 30 (76189 / 100)
            (some (53528 / 100)) (some "center")] ∧
      (layout sampleHost seedInvoice2 seedCompany).footer.calls =
        (layout sampleHost seedInvoice1 seedCompany).footer.calls :=
  ⟨by decide!, (C10_footer_fixed sampleHost seedInvoice1 seedCompany).2.2 seedInvoice2 seedCompany⟩

/-! ## C11: a logo that does not load -/

theorem headerBlock_logo_fails (R : Runtime) (invoice : Invoice) (company : Company) (y : ℚ)
    (src : String) (hl : company.logo = some src) (hf : R.imageLoads src = false) :
    headerBlock R invoice company y = headerBlock R invoice { company with logo := none } y := by
  simp [headerBlock, truthy, orEmpty, docImage, hl, hf]

theorem layout_logo_fails (R : Runtime) (invoice : Invoice) (company : Company)
    (src : String) (hl : company.logo = some src) (hf : R.imageLoads src = false) :
    layout R invoice company = layout R invoice { company with logo := none } := by
  have h := fun y => headerBlock_logo_fails R invoice company y src hl hf
  simp only [layout, h, partyBlock, companyColumn]

/-- C11: when the company profile has a logo and loading it fails, the promise is
still resolved, and the calls (and every cursor) are exactly those of the same
invoice and the same profile without the logo; no image call is made. -/
theorem C11_logo_failure (R : Runtime) (invoice : Invoice) (company : Company) (src : String)
    (hl : company.logo = some src) (hf : R.imageLoads src = false) :
    (∃ calls, generateInvoicePDF R invoice company = .ok calls) ∧
      generateInvoicePDF R invoice company =
        generateInvoicePDF R invoice { company with logo := none } ∧
      layout R invoice company = layout R invoice { company with logo := none } ∧
      (layout R invoice company).header.calls =
        [font "Helvetica-Bold", fontSize headerTitleSize, fillColor "#111827",
          text "INVOICE" (left + 0) 20 none none,
          font "Helvetica", fontSize smallText, fillColor "#6b7280",
          text ("Invoice ID: " ++ invoice.invoiceNumber) (left + 0) (20 + headerTitleSize + 6)
            none none] := by
  refine ⟨⟨_, rfl⟩, ?_, layout_logo_fails R invoice company src hl hf, ?_⟩
  · simp only [generateInvoicePDF, layout_logo_fails R invoice company src hl hf]
  · simp [layout, headerBlock, truthy, orEmpty, docImage, hl, hf]

/-- C11, witness: on a host where no image loads, the seed company given a logo
renders as the seed company. -/
theorem C11_logo_failure_witness :
    logoCompany.logo = some "logo.png" ∧
      generateInvoicePDF sampleHost seedInvoice1 logoCompany =
        generateInvoicePDF sampleHost seedInvoice1 seedCompany :=
  ⟨rfl, (C11_logo_failure sampleHost seedInvoice1 logoCompany "logo.png" rfl rfl).2.1⟩

/-! ## C12, C13 and C14: the create and update routes -/

theorem foldl_add_sum (f : LineItem → ℚ) (l : List LineItem) (a : ℚ) :
    l.foldl (fun sum item => sum + f item) a = a + (l.map f).sum := by
  induction l generalizing a with
  | nil => simp
  | cons x l ih => simp [List.foldl_cons, ih, add_assoc]

theorem sumItems_eq_sum (items : List LineItem) :
    sumItems items = (items.map fun item => item.quantity * item.price).sum := by
  rw [sumItems, foldl_add_sum (fun item => item.quantity * item.price)]
  simp

theorem createRoute_saved (db : Db) (userId : String) (body : CreateBody) (doc : InvoiceDoc)
    (h : (createRoute db userId body).saved = some doc) :
    ∃ raw, body.items = .array raw ∧ raw ≠ [] ∧ validateItems raw 0 = none ∧
      0 ≤ body.tax.getD 0 ∧ 0 ≤ body.discount.getD 0 ∧
      doc.items = raw.map RawItem.toLineItem ∧ doc.subtotal = sumItems doc.items ∧
      doc.tax = body.tax.getD 0 ∧ doc.discount = body.discount.getD 0 ∧
      doc.total = doc.subtotal + doc.tax - doc.discount ∧
      (createRoute db userId body).response = .data 201 doc := by
  unfold createRoute at h
  split at h
  · simp at h
  rename_i hc
  split at h
  · simp at h
  rename_i hd
  split at h
  · simp at h
  · simp at h
  rename_i raw hraw
  split at h
  · simp at h
  rename_i hlen
  split at h
  · simp at h
  rename_i hval
  split at h
  · simp at h
  rename_i hown
  dsimp only at h
  split at h
  · simp at h
  rename_i htax
  split at h
  · simp at h
  rename_i hdisc
  split at h
  · simp at h
  rename_i hcreate
  simp only [Option.some.injEq] at h
  subst h
  refine ⟨raw, hraw, ?_, hval, not_lt.mp htax, not_lt.mp hdisc, rfl, rfl, rfl, rfl, rfl, ?_⟩
  · intro e; exact hlen (by simp [e])
  · simp [createRoute, hc, hd, hraw, hlen, hval, hown, htax, hdisc, hcreate]

theorem createRoute_invariant (db : Db) (userId : String) (body : CreateBody) (doc : InvoiceDoc)
    (h : (createRoute db userId body).saved = some doc) : TotalsInvariant doc := by
  obtain ⟨raw, -, -, -, -, -, -, hs, -, -, ht, -⟩ := createRoute_saved db userId body doc h
  exact ⟨by rw [hs, sumItems_eq_sum], ht⟩

theorem updateRoute_saved (db : Db) (userId id : String) (body : UpdateBody) (doc : InvoiceDoc)
    (h : (updateRoute db userId id body).saved = some doc) :
    ∃ invoice, db.findById id = some invoice ∧
      doc.items = body.items.getD invoice.items ∧
      doc.tax = body.tax.getD invoice.tax ∧
      doc.discount = body.discount.getD invoice.discount ∧
      doc.subtotal = body.subtotal.getD
        (match body.items with | some items => sumItems items | none => invoice.subtotal) ∧
      doc.total = body.total.getD
        ((match body.items with | some items => sumItems items | none => invoice.subtotal) +
          body.tax.getD invoice.tax - body.discount.getD invoice.discount) := by
  cases hfind : db.findById id with
  | none => simp [updateRoute, hfind] at h
  | some invoice =>
    refine ⟨invoice, rfl, ?_⟩
    by_cases hu : invoice.userId = userId
    · cases hi : body.items <;> cases ht : body.tax <;> cases hd : body.discount <;>
        simp only [updateRoute, hfind, hu, hi, ht, hd, ne_eq, not_true_eq_false, if_false] at h <;>
        (split at h
         · simp at h
         · simp only [Option.some.injEq] at h
           subst h
           simp [objectAssign, hi, ht, hd])
    · simp [updateRoute, hfind, hu] at h

/-- C12: every invoice the create route stores has subtotal = sum of quantity x
price over its items and total = subtotal + tax - discount, and so has every
invoice the update route stores when the body carries neither `subtotal` nor
`total` (the stored invoice having the right subtotal).  But an update whose
body is `{ total: 1 }`, sent for the first seed invoice, stores total 1 beside
subtotal 5500, tax 550 and discount 0: line 205 copies the body over the totals
just computed. -/
theorem C12_update_overwrites_totals :
    (∀ (db : Db) (userId : String) (body : CreateBody) (doc : InvoiceDoc),
      (createRoute db userId body).saved = some doc → TotalsInvariant doc) ∧
    (∀ (db : Db) (userId id : String) (body : UpdateBody) (doc : InvoiceDoc),
      body.subtotal = none → body.total = none →
      (∀ invoice, db.findById id = some invoice →
        invoice.subtotal = (invoice.items.map fun item => item.quantity * item.price).sum) →
      (updateRoute db userId id body).saved = some doc → TotalsInvariant doc) ∧
    ∃ doc, (updateRoute seedDb "user1" "inv1" totalOnlyBody).saved = some doc ∧
      (updateRoute seedDb "user1" "inv1" totalOnlyBody).response = .data 200 doc ∧
      doc.subtotal = 5500 ∧ doc.tax = 550 ∧ doc.discount = 0 ∧ doc.total = 1 ∧
      doc.subtotal = (doc.items.map fun item => item.quantity * item.price).sum ∧
      ¬ TotalsInvariant doc := by
  refine ⟨createRoute_invariant, ?_, ?_⟩
  · intro db userId id body doc hs ht hinv h
    obtain ⟨invoice, hfind, hi, htax, hdisc, hsub, htot⟩ := updateRoute_saved db userId id body doc h
    rw [hs] at hsub
    rw [ht] at htot
    simp only [Option.getD_none] at hsub htot
    refine ⟨?_, by rw [htot, hsub, htax, hdisc]⟩
    rw [hsub, hi]
    cases hb : body.items with
    | none => simpa using hinv invoice hfind
    | some items => simp [sumItems_eq_sum]
  · refine ⟨overwrittenDoc, by decide!, by decide!, rfl, rfl, rfl, rfl, by decide!, ?_⟩
    intro hinv
    have h2 : overwrittenDoc.total ≠
        overwrittenDoc.subtotal + overwrittenDoc.tax - overwrittenDoc.discount := by decide!
    exact h2 hinv.2

theorem header_y (R : Runtime) (invoice : Invoice) (company : Company) (y : ℚ) :
    (headerBlock R invoice company y).y = y + 60 := by
  simp only [headerBlock, headerTitleSize]
  ring

theorem presentFields_length_le (a b c : Option String) :
    (presentFields [a, b, c]).length ≤ 3 := by
  simp only [presentFields, List.length_map]
  exact (List.length_filter_le _ _).trans (by simp)

theorem party_y_bounds (R : Runtime) (invoice : Invoice) (company : Company) (y : ℚ) :
    y + 38 ≤ (partyBlock R invoice company y).y ∧ (partyBlock R invoice company y).y ≤ y + 74 := by
  have hc := (clientColumn_calls R invoice y).2
  have hr := (companyColumn_calls R company y).2
  have h1 : (clientLines invoice).length ≤ 4 := by
    simp only [clientLines, List.length_cons]
    have := presentFields_length_le (invoice.clientId.bind Client.email)
      (invoice.clientId.bind Client.phone) (invoice.clientId.bind Client.address)
    omega
  have h2 : (companyLines company).length ≤ 4 := by
    simp only [companyLines, List.length_cons]
    have := presentFields_length_le company.email company.phone company.address
    omega
  have h3 : 1 ≤ (clientLines invoice).length := by simp [clientLines]
  have h4 : 1 ≤ (companyLines company).length := by simp [companyLines]
  have q1 : ((clientLines invoice).length : ℚ) ≤ 4 := by exact_mod_cast h1
  have q2 : ((companyLines company).length : ℚ) ≤ 4 := by exact_mod_cast h2
  have q3 : (1 : ℚ) ≤ ((clientLines invoice).length : ℚ) := by exact_mod_cast h3
  have q4 : (1 : ℚ) ≤ ((companyLines company).length : ℚ) := by exact_mod_cast h4
  simp only [partyBlock, hc, hr]
  constructor
  · have := le_max_left (y + 14 + 12 * ((clientLines invoice).length : ℚ))
      (y + 14 + 12 * ((companyLines company).length : ℚ))
    linarith
  · have := max_le (a := y + 14 + 12 * ((clientLines invoice).length : ℚ))
      (b := y + 14 + 12 * ((companyLines company).length : ℚ)) (c := y + 62)
      (by linarith) (by linarith)
    linarith

theorem dates_y (R : Runtime) (invoice : Invoice) (y : ℚ) :
    (datesBlock R invoice y).y = y + (24 + 20 + 8) := by
  simp only [datesBlock, datesHeaderHeight, datesRowHeight]
  ring

theorem tableHeader_y (R : Runtime) (y : ℚ) : (tableHeaderBlock R y).y = y + 34 := by
  simp only [tableHeaderBlock, headerHeight]
  ring

theorem tableRows_y (R : Runtime) (invoice : Invoice) (y : ℚ) :
    (tableRowsBlock R invoice y).y = y + 20 * (min 12 invoice.items.length : ℕ) + 12 := by
  simp only [tableRowsBlock, rows_length, rowHeight]
  ring

theorem totals_y (R : Runtime) (invoice : Invoice) (y : ℚ) :
    (totalsBlock R invoice y).y = y + (if invoice.discount ≠ 0 then 94 else 78) := by
  by_cases hd : invoice.discount = 0 <;>
    simp [totalsBlock, drawTotalsRow, totalBoxH, hd] <;> ring

theorem notes_y (R : Runtime) (invoice : Invoice) (y : ℚ) :
    (notesBlock R invoice y).y = y + (if invoice.notes ≠ "" then 68 else 18) := by
  by_cases hn : invoice.notes = ""
  · simp [notesBlock, hn]
  · simp only [notesBlock, hn, ne_eq, not_false_eq_true, if_true]
    ring

/-- C16: for every invoice and company profile the cursor after the notes is at
most 654 and the notes box, drawn when the notes are not empty with its top 8
below the totals and a height of 48, ends at most at 642; on the A4 page (height
841.89) both lie strictly above the divider of the footer at pageHeight - 90. -/
theorem C16_cursor_bound (R : Runtime) (invoice : Invoice) (company : Company) :
    (layout R invoice company).notes.y ≤ 654 ∧
      (invoice.notes ≠ "" →
        (∃ more, (layout R invoice company).notes.calls =
          roundedRect left ((layout R invoice company).totals.y + 8) (contentWidth R) 48 4
            :: more) ∧
        (layout R invoice company).totals.y + 8 + 48 ≤ 642) ∧
      (R.pageHeight = 84189 / 100 →
        (layout R invoice company).notes.y < R.pageHeight - 90 ∧
        (layout R invoice company).totals.y + 8 + 48 < R.pageHeight - 90) := by
  have h1 := header_y R invoice company 20
  have h2 := (party_y_bounds R invoice company (headerBlock R invoice company 20).y).2
  have h3 := dates_y R invoice (partyBlock R invoice company (headerBlock R invoice company 20).y).y
  have h4 := tableHeader_y R (layout R invoice company).dates.y
  have h5 := tableRows_y R invoice (layout R invoice company).tableHeader.y
  have h6 := totals_y R invoice (layout R invoice company).tableRows.y
  have h7 := notes_y R invoice (layout R invoice company).totals.y
  have hm : ((min 12 invoice.items.length : ℕ) : ℚ) ≤ 12 := by
    exact_mod_cast Nat.min_le_left 12 invoice.items.length
  have hd : (if invoice.discount ≠ 0 then (94 : ℚ) else 78) ≤ 94 := by split <;> norm_num
  have hn : (if invoice.notes ≠ "" then (68 : ℚ) else 18) ≤ 68 := by split <;> norm_num
  have e7 : (layout R invoice company).notes.y =
      (notesBlock R invoice (layout R invoice company).totals.y).y := rfl
  have e6 : (layout R invoice company).totals.y =
      (totalsBlock R invoice (layout R invoice company).tableRows.y).y := rfl
  have e5 : (layout R invoice company).tableRows.y =
      (tableRowsBlock R invoice (layout R invoice company).tableHeader.y).y := rfl
  have e4 : (layout R invoice company).tableHeader.y =
      (tableHeaderBlock R (layout R invoice company).dates.y).y := rfl
  have e3 : (layout R invoice company).dates.y =
      (datesBlock R invoice (partyBlock R invoice company (headerBlock R invoice company 20).y).y).y :=
    rfl
  have ht : (layout R invoice company).totals.y ≤ 586 := by linarith
  refine ⟨by linarith, fun hne => ⟨?_, by linarith⟩, fun hp => ⟨by linarith, by linarith⟩⟩
  have : (layout R invoice company).notes.calls =
      (notesBlock R invoice (layout R invoice company).totals.y).calls := rfl
  rw [this]
  simp [notesBlock, hne]

/-- C16, witness: the longest invoice reaches the bounds: its notes box ends at
642 and its cursor at 654, above the divider at 751.89. -/
theorem C16_cursor_bound_witness :
    (layout sampleHost fullInvoice seedCompany).totals.y + 8 + 48 = 642 ∧
      (layout sampleHost fullInvoice seedCompany).notes.y = 654 ∧
      (layout sampleHost fullInvoice seedCompany).notes.y < sampleHost.pageHeight - 90 :=
  ⟨by decide!, by decide!,
    ((C16_cursor_bound sampleHost fullInvoice seedCompany).2.2 rfl).1⟩

/-- C17: the cursor strictly increases across each section in page order: the
header takes it from 20 to 80; the party block moves it further down; the dates
strip leaves it exactly 24 + 20 + 8 below the top of the strip; the table, the
totals and the notes each move it further down, the notes by 68 when they are
not empty and by 18 otherwise. -/
theorem C17_cursor_increases (R : Runtime) (invoice : Invoice) (company : Company) :
    (20 : ℚ) < (layout R invoice company).header.y ∧
      (layout R invoice company).header.y < (layout R invoice company).party.y ∧
      (layout R invoice company).dates.y =
        (layout R invoice company).party.y + (24 + 20 + 8) ∧
      (layout R invoice company).party.y < (layout R invoice company).dates.y ∧
      (layout R invoice company).dates.y < (layout R invoice company).tableHeader.y ∧
      (layout R invoice company).tableHeader.y < (layout R invoice company).tableRows.y ∧
      (layout R invoice company).tableRows.y < (layout R invoice company).totals.y ∧
      (layout R invoice company).notes.y =
        (layout R invoice company).totals.y + (if invoice.notes ≠ "" then 68 else 18) ∧
      (layout R invoice company).totals.y < (layout R invoice company).notes.y := by
  have h1 := header_y R invoice company 20
  have h2 := (party_y_bounds R invoice company (headerBlock R invoice company 20).y).1
  have h3 := dates_y R invoice (partyBlock R invoice company (headerBlock R invoice company 20).y).y
  have h4 := tableHeader_y R (layout R invoice company).dates.y
  have h5 := tableRows_y R invoice (layout R invoice company).tableHeader.y
  have h6 := totals_y R invoice (layout R invoice company).tableRows.y
  have h7 := notes_y R invoice (layout R invoice company).totals.y
  have hm : (0 : ℚ) ≤ ((min 12 invoice.items.length : ℕ) : ℚ) := Nat.cast_nonneg _
  have hd : (78 : ℚ) ≤ (if invoice.discount ≠ 0 then (94 : ℚ) else 78) := by
    split <;> norm_num
  have hn : (18 : ℚ) ≤ (if invoice.notes ≠ "" then (68 : ℚ) else 18) := by split <;> norm_num
  have e7 : (layout R invoice company).notes.y =
      (notesBlock R invoice (layout R invoice company).totals.y).y := rfl
  have e6 : (layout R invoice company).totals.y =
      (totalsBlock R invoice (layout R invoice company).tableRows.y).y := rfl
  have e5 : (layout R invoice company).tableRows.y =
      (tableRowsBlock R invoice (layout R invoice company).tableHeader.y).y := rfl
  have e4 : (layout R invoice company).tableHeader.y =
      (tableHeaderBlock R (layout R invoice company).dates.y).y := rfl
  have e3 : (layout R invoice company).dates.y =
      (datesBlock R invoice (layout R invoice company).party.y).y := rfl
  have e2 : (layout R invoice company).party.y =
      (partyBlock R invoice company (headerBlock R invoice company 20).y).y := rfl
  have e1 : (layout R invoice company).header.y = (headerBlock R invoice company 20).y := rfl
  have h3b : (layout R invoice company).dates.y =
      (layout R invoice company).party.y + (24 + 20 + 8) := by rw [e3, e2, h3]
  refine ⟨by linarith, by linarith, h3b, by linarith, by linarith, by linarith, by linarith,
    by rw [e7, h7], by linarith⟩

/-- C17, witness: the cursors of the first seed invoice are 80, 154, 206, 240,
292, 370 and 388. -/
theorem C17_cursor_increases_witness :
    (layout sampleHost seedInvoice1 seedCompany).header.y = 80 ∧
      (layout sampleHost seedInvoice1 seedCompany).party.y = 154 ∧
      (layout sampleHost seedInvoice1 seedCompany).dates.y = 206 ∧
      (layout sampleHost seedInvoice1 seedCompany).tableHeader.y = 240 ∧
      (layout sampleHost seedInvoice1 seedCompany).tableRows.y = 292 ∧
      (layout sampleHost seedInvoice1 seedCompany).totals.y = 370 ∧
      (layout sampleHost seedInvoice1 seedCompany).notes.y = 388 ∧
      (layout sampleHost seedInvoice1 seedCompany).totals.y <
        (layout sampleHost seedInvoice1 seedCompany).notes.y :=
  ⟨by decide!, by decide!, by decide!, by decide!, by decide!, by decide!, by decide!,
    (C17_cursor_increases sampleHost seedInvoice1 seedCompany).2.2.2.2.2.2.2.2⟩

end InvoicePdf
